import Mathlib

/-
Verification of the scrape-orchestration backend (quid).

Each definition below is a shallow embedding of one Python function of the
repository, translated from the source under src/backend/.  Fallible Python
operations (browser calls, file IO) are represented by Except-valued inputs
describing the outcome the external world produces; try/except blocks are
modelled by matching on those outcomes exactly where the source catches.
-/

/-- Python str.strip() whitespace predicate, restricted to the ASCII
whitespace characters (space, tab, newline, carriage return, vertical tab,
form feed). -/
def isPySpace (c : Char) : Bool :=
  c == ' ' || c == '\t' || c == '\n' || c == '\r' ||
  c == Char.ofNat 11 || c == Char.ofNat 12

/-- Python str.strip() with no arguments: drop whitespace from both ends. -/
def pyStrip (s : String) : String :=
  String.mk (((s.toList.dropWhile isPySpace).reverse.dropWhile isPySpace).reverse)

/-
Session store model (src/backend/core/session_manager.py).

A stored session file is represented by its last-write time (st_mtime) and
its content; json.load of the content is represented by its outcome: either
the serialized record it parses to, or corrupt (JSONDecodeError).
-/

/-- Outcome of deserializing the bytes of a session file with json.load. -/
inductive StoredContent
  | valid (data : String)
  | corrupt
  deriving DecidableEq

/-- A session file on disk: modification time plus content. -/
structure StoredFile where
  mtime : Int
  content : StoredContent
  deriving DecidableEq

/-- State of the per-site storage location, together with the outcomes of the
OS calls the session manager performs on it: readRaises models a non-JSON
exception while opening/locking/reading, statOk models whether stat()
succeeds, unlinkOk models whether unlink() succeeds. -/
structure StoreState where
  file : Option StoredFile
  readRaises : Bool
  statOk : Bool
  unlinkOk : Bool
  deriving DecidableEq

/-- Validation subsection of the site configuration
(config.get('session', \x7b\x7d).get('validation', \x7b\x7d)). -/
structure ValidationConfig where
  method : Option String := none
  deriving DecidableEq

/-- Session subsection of the site configuration. -/
structure SessionConfig where
  ttl_seconds : Option Int := none
  validation : Option ValidationConfig := none
  deriving DecidableEq

/-- The parts of the resolved site configuration the embedded functions
read. -/
structure SiteConfig where
  session : Option SessionConfig := none
  base_url : Option String := none
  deriving DecidableEq

/-- config.get('session', \x7b\x7d).get('ttl_seconds', 3600)
(session_manager.py line 150). -/
def ttlSeconds (c : SiteConfig) : Int :=
  ((c.session.getD {}).ttl_seconds).getD 3600

/-- config lookup of session.validation.method with default 'full'
(scraper.py line 258). -/
def validationMethod (c : SiteConfig) : String :=
  (((c.session.getD {}).validation.getD {}).method).getD "full"

/-- SessionManager.is_session_expired (session_manager.py lines 134-163):
returns True when the file does not exist; otherwise compares the file age
now - mtime strictly against the TTL; any exception while reading the
modification time yields True.  Total by construction: the Python body wraps
everything after the existence check in try/except returning True. -/
def is_session_expired (st : StoreState) (now : Int) (cfg : SiteConfig) : Bool :=
  match st.file with
  | none => true
  | some f =>
    if st.statOk then decide (now - f.mtime > ttlSeconds cfg) else true

/-- SessionManager.delete_session (session_manager.py lines 198-207):
unlink the file if it exists; failures are swallowed. -/
def delete_session (st : StoreState) : StoreState :=
  match st.file with
  | none => st
  | some _ => if st.unlinkOk then { st with file := none } else st

/-- SessionManager.load_session (session_manager.py lines 94-132): None when
the file does not exist; a non-JSON exception during open/lock/read yields
None with the file untouched; a JSONDecodeError deletes the corrupt file and
yields None; otherwise the parsed record.  Returns the loaded value together
with the resulting store state; total by construction (every exception path
of the source returns None). -/
def load_session (st : StoreState) : Option String × StoreState :=
  match st.file with
  | none => (none, st)
  | some f =>
    if st.readRaises then (none, st)
    else
      match f.content with
      | .valid d => (some d, st)
      | .corrupt => (none, delete_session st)

/-
Interleaving model of SessionManager.save_session (lines 165-196) and
SessionManager.load_session (lines 94-132) running concurrently on the same
site id.  Each task is broken into the atomic operations the OS sees, in the
exact order the source performs them; flock is advisory: acquiring a lock
blocks only other flock calls, while open/truncate/read/write proceed
regardless of who holds the lock.

Writer (save_session, record serialized as newContent):
  step 0: open(file, 'w')  -- truncates the file (session_manager.py 177)
  step 1: flock LOCK_EX    -- blocks while any lock is held (line 180)
  step 2: json.dump        -- writes the full serialization (line 181)
  step 3: flock LOCK_UN    -- release (line 182)

Reader (load_session):
  step 0: exists check + open(file, 'r')   (lines 101, 106)
  step 1: flock LOCK_SH    -- blocks while the exclusive lock is held (109)
  step 2: json.load        -- observes the current file content (line 110)
  step 3: flock LOCK_UN    -- release (line 111)
-/

/-- State of the advisory flock on the session file. -/
inductive LockSt
  | free
  | shared (n : Nat)
  | excl
  deriving DecidableEq

/-- Joint state of one save_session task and one load_session task racing on
the same session file.  observed records the content json.load read (none
while the reader has not yet read). -/
structure ConcState where
  file : Option String
  lock : LockSt
  wPC : Nat
  rPC : Nat
  observed : Option String
  deriving DecidableEq

/-- One atomic operation of the writer (save_session); none means the
operation blocks (flock) or the task is done. -/
def writerStep (newContent : String) (s : ConcState) : Option ConcState :=
  match s.wPC with
  | 0 => some { s with file := some "", wPC := 1 }
  | 1 =>
    match s.lock with
    | .free => some { s with lock := .excl, wPC := 2 }
    | _ => none
  | 2 => some { s with file := some newContent, wPC := 3 }
  | 3 => some { s with lock := .free, wPC := 4 }
  | _ => none

/-- One atomic operation of the reader (load_session); none means the
operation blocks or the task is done. -/
def readerStep (s : ConcState) : Option ConcState :=
  match s.rPC with
  | 0 =>
    match s.file with
    | some _ => some { s with rPC := 1 }
    | none => none
  | 1 =>
    match s.lock with
    | .free => some { s with lock := .shared 1, rPC := 2 }
    | .shared n => some { s with lock := .shared (n + 1), rPC := 2 }
    | .excl => none
  | 2 => some { s with observed := s.file, rPC := 3 }
  | 3 =>
    match s.lock with
    | .shared (n + 1) =>
      some { s with lock := if n = 0 then .free else .shared n, rPC := 4 }
    | _ => none
  | _ => none

/-- Task identifiers of the race. -/
inductive Tid
  | writer
  | reader
  deriving DecidableEq

/-- Dispatch one atomic operation of the named task. -/
def raceStep (newContent : String) (s : ConcState) : Tid → Option ConcState
  | .writer => writerStep newContent s
  | .reader => readerStep s

/-- Run a schedule of task activations; the run fails (none) if a scheduled
task is blocked or done at its turn, so a successful run is a legal
interleaving. -/
def raceRun (newContent : String) : ConcState → List Tid → Option ConcState
  | s, [] => some s
  | s, t :: ts =>
    match raceStep newContent s t with
    | some s2 => raceRun newContent s2 ts
    | none => none

/-- Initial state: the previous record is stored complete, no lock held,
both tasks at their first operation. -/
def raceInit (oldContent : String) : ConcState :=
  { file := some oldContent, lock := .free, wPC := 0, rPC := 0, observed := none }

/-- The schedule exhibiting the truncation window: the writer truncates at
open('w'), then the whole reader runs under its shared lock, then the writer
acquires the exclusive lock and writes. -/
def raceSched : List Tid :=
  [.writer, .reader, .reader, .reader, .reader, .writer, .writer, .writer]

/-
Form-based authentication indicator model
(src/backend/auth/strategies/form_based.py).

The post-submit page is represented by its URL and the DOM elements
query_selector can find, as a selector -> inner_text association list.
-/

/-- A rendered page as the indicator checks observe it. -/
structure PageModel where
  url : String
  elements : List (String × String)
  deriving DecidableEq

/-- One configured success or failure indicator (a config dict with keys
'type', 'pattern', 'selector', 'extract_error'). -/
structure Indicator where
  itype : Option String := none
  pattern : Option String := none
  selector : Option String := none
  extract_error : Bool := false
  deriving DecidableEq

/-- First list starts with the second list as a leading segment. -/
def leadsWith : List Char → List Char → Bool
  | [], _ => true
  | _ :: _, [] => false
  | a :: p, b :: s => a == b && leadsWith p s

/-- The pattern occurs as a contiguous segment of the list. -/
def occursIn (p : List Char) : List Char → Bool
  | [] => p.isEmpty
  | b :: s => leadsWith p (b :: s) || occursIn p s

/-- page.query_selector modelled as lookup among the present elements. -/
def querySel (page : PageModel) (sel : String) : Option String :=
  page.elements.lookup sel

/-- ASCII rendering of Python str.lower() on one character. -/
def lowerChar (c : Char) : Char :=
  if 65 ≤ c.toNat ∧ c.toNat ≤ 90 then Char.ofNat (c.toNat + 32) else c

/-- ASCII rendering of Python str.lower(), as a character list. -/
def lowerStr (s : String) : List Char :=
  s.toList.map lowerChar

/-- FormBasedAuth._check_indicator (form_based.py lines 523-572): url_change
compares a substring pattern (with a '!' negation convention, the pattern
kept verbatim) against the lowercased current URL; element_present and
element_absent test query_selector; an unrecognized or missing type matches
nothing. -/
def check_indicator (page : PageModel) (ind : Indicator) : Bool :=
  match ind.itype with
  | some t =>
    if t == "url_change" then
      match (ind.pattern.getD "").toList with
      | '!' :: rest => !(occursIn rest (lowerStr page.url))
      | pat => occursIn pat (lowerStr page.url)
    else if t == "element_present" then
      match ind.selector with
      | none => false
      | some sel => (querySel page sel).isSome
    else if t == "element_absent" then
      match ind.selector with
      | none => false
      | some sel => (querySel page sel).isNone
    else false
  | none => false

/-- Error message built when a failure indicator matches (form_based.py
lines 488-498): if the indicator asks to extract_error and its selector
resolves to an element, the element's stripped inner text is appended;
every failure of that extraction leaves the plain message. -/
def failureMessage (page : PageModel) (ind : Indicator) : String :=
  if ind.extract_error then
    match ind.selector with
    | some sel =>
      match querySel page sel with
      | some text => "Login failed: " ++ pyStrip text
      | none => "Login failed"
    | none => "Login failed"
  else "Login failed"

/-- Default success indicator list used when the configuration provides none
(form_based.py lines 503-505). -/
def defaultSuccessIndicators : List Indicator :=
  [{ itype := some "url_change", pattern := some "!login" }]

/-- The indicator configuration of a form_based auth descriptor. -/
structure FormAuthConfig where
  failure_indicators : List Indicator := []
  success_indicators : Option (List Indicator) := none
  deriving DecidableEq

/-- Post-submit evaluation inside FormBasedAuth.login (form_based.py lines
484-513): every failure indicator is checked first and the first match
raises LoginFailedException with its message; only then are success
indicators checked, the first match returning success; with no match at all
the attempt fails closed. -/
def post_submit_outcome (page : PageModel) (cfg : FormAuthConfig) :
    Except String Unit :=
  match cfg.failure_indicators.find? (fun i => check_indicator page i) with
  | some ind => .error (failureMessage page ind)
  | none =>
    let succ := cfg.success_indicators.getD defaultSuccessIndicators
    if succ.any (fun i => check_indicator page i) then .ok ()
    else .error "Login failed - no success indicators matched"

/-
Extractor registry model (src/backend/extractors/registry.py).

The page is fixed during selection, so each registered extractor type is
summarized by the outcome of its can_extract call on that page: Except.ok b
for a returned boolean, Except.error () for a raised exception.  The config
payload of a strategy spec does not influence selection and is omitted.
-/

/-- One entry of the configured extraction strategy list (a config dict whose
'type' key may be missing). -/
structure StrategySpec where
  stype : Option String
  deriving DecidableEq

/-- The registry contents and the behavior of each extractor type against
the current page. -/
structure ExtractionEnv where
  registered : List String
  canEx : String → Except Unit Bool

/-- True when the can_extract call returns (rather than raises). -/
def canExReturns (e : Except Unit Bool) : Bool :=
  match e with
  | .ok _ => true
  | .error _ => false

/-- ExtractorRegistry.select_extractor (registry.py lines 62-92): walk the
configured strategies in declared order; skip entries with no type; skip
entries whose construction (unknown type, get_extractor ValueError) or
can_extract call raises; return the first whose can_extract is true;
otherwise raise ValueError. -/
def select_extractor (env : ExtractionEnv) :
    List StrategySpec → Except String String
  | [] => .error "No suitable extractor found for this page"
  | s :: rest =>
    match s.stype with
    | none => select_extractor env rest
    | some t =>
      if env.registered.contains t then
        match env.canEx t with
        | .ok true => .ok t
        | .ok false => select_extractor env rest
        | .error _ => select_extractor env rest
      else select_extractor env rest

/-- Modelled from the spec words of the selection algorithm: the first
strategy, in declared order, whose can_extract returns true.  Used to state
that select_extractor refines the spec sentence. -/
def firstApplicable (env : ExtractionEnv) :
    List StrategySpec → Option String
  | [] => none
  | s :: rest =>
    match s.stype with
    | none => firstApplicable env rest
    | some t =>
      match env.canEx t with
      | .ok true => some t
      | _ => firstApplicable env rest

/-- A strategy entry is well formed for the current page when it names a
registered extractor type whose can_extract returns a boolean. -/
def wfStrategy (env : ExtractionEnv) (s : StrategySpec) : Bool :=
  match s.stype with
  | none => false
  | some t => env.registered.contains t && canExReturns (env.canEx t)

/-
Orchestrator model (src/backend/core/scraper.py).

Browser operations are external effects; each is represented by the outcome
the browser produces when the orchestrator reaches it: Except.ok for a
normal return, Except.error () for a raised exception.
-/

/-- The inputs of one GenericScraper._validate_session run: the stored
session state and the outcomes of the browser operations the method may
perform.  authStrategy is the outcome of _get_auth_strategy (which can raise
for an unsupported auth kind); ok none means the site needs no auth, and
ok (some v) carries the outcome of the strategy's validate_session call.
_quick_session_check catches internally and returns a boolean, so it is a
plain Bool. -/
structure ValidationWorld where
  store : StoreState
  now : Int
  config : SiteConfig
  createContext : Except Unit Unit
  quickCheckHasSession : Bool
  newPageOk : Except Unit Unit
  gotoOk : Except Unit Unit
  authStrategy : Except Unit (Option (Except Unit Bool))

/-- Full-validation tail of _validate_session (scraper.py lines 274-295):
open a page, navigate to the base URL, and ask the auth strategy to confirm
the session; no strategy (auth type none) counts as valid. -/
def validateFull (w : ValidationWorld) : Except Unit Bool :=
  match w.newPageOk with
  | .error _ => .error ()
  | .ok _ =>
    match w.gotoOk with
    | .error _ => .error ()
    | .ok _ =>
      match w.authStrategy with
      | .error _ => .error ()
      | .ok none => .ok true
      | .ok (some v) =>
        match v with
        | .error _ => .error ()
        | .ok false => .ok false
        | .ok true => .ok true

/-- Body of the try block of _validate_session (scraper.py lines 253-295):
create a context seeded with the record, then run the quick or full check
according to the configured validation method; 'quick' falls through to full
validation when the cookie check fails, 'cookies_only' does not. -/
def validateBody (w : ValidationWorld) : Except Unit Bool :=
  match w.createContext with
  | .error _ => .error ()
  | .ok _ =>
    let method := validationMethod w.config
    if method == "quick" || method == "cookies_only" then
      if w.quickCheckHasSession then
        match w.newPageOk with
        | .error _ => .error ()
        | .ok _ => .ok true
      else if method == "cookies_only" then .ok false
      else validateFull w
    else validateFull w

/-- GenericScraper._validate_session (scraper.py lines 236-303): TTL check
first, then the record load (both total), then the try block whose except
handler turns every raised exception into False.  The Python falsiness test
"if not session_data" is rendered as the record being empty. -/
def validate_session (w : ValidationWorld) : Bool :=
  if is_session_expired w.store w.now w.config then false
  else
    match (load_session w.store).1 with
    | none => false
    | some d =>
      if d = "" then false
      else
        match validateBody w with
        | .ok b => b
        | .error _ => false

/-- The inputs of one GenericScraper._perform_search run: the search
configuration shape and the outcomes of the browser operations inside its
try block. -/
structure SearchWorld where
  hasSearchConfig : Bool
  searchUrl : Option String
  inputSelector : Option String
  buttonSelector : Option String
  gotoOk : Except Unit Unit
  fillOk : Except Unit Unit
  clickOk : Except Unit Unit
  waitOk : Except Unit Unit

/-- Body of the try block of _perform_search (scraper.py lines 446-487):
navigate, clear obstructions, fill the query, submit.  Missing configuration
pieces return early without error (lines 435-442, 458). -/
def searchBody (sw : SearchWorld) : Except Unit Unit :=
  if sw.hasSearchConfig = false then .ok ()
  else
    match sw.searchUrl with
    | none => .ok ()
    | some _ =>
      match sw.gotoOk with
      | .error _ => .error ()
      | .ok _ =>
        match sw.inputSelector with
        | none => .ok ()
        | some _ =>
          match sw.fillOk with
          | .error _ => .error ()
          | .ok _ =>
            match sw.buttonSelector with
            | none => .ok ()
            | some _ =>
              match sw.clickOk with
              | .error _ => .error ()
              | .ok _ =>
                match sw.waitOk with
                | .error _ => .error ()
                | .ok _ => .ok ()

/-- GenericScraper._perform_search (scraper.py lines 426-490): the whole
try body is guarded by an except handler that only logs, so the method
returns normally whatever happens inside. -/
def perform_search_model (sw : SearchWorld) : Unit :=
  match searchBody sw with
  | .ok _ => ()
  | .error _ => ()

/-- An extracted record: a field map. -/
abbrev Row := List (String × String)

/-- The inputs of one GenericScraper.query run beyond the search step:
browser launch, session validation world, login outcome (the message of the
LoginFailedException when it fails), extraction environment and configured
strategies, the extract call outcome of the selected extractor, and the
final session save outcome. -/
structure QueryWorld where
  initBrowserOk : Bool
  v : ValidationWorld
  loginResult : Except String Unit
  env : ExtractionEnv
  strategies : List StrategySpec
  runExtract : String → Except Unit (List Row)
  saveOk : Bool

/-- GenericScraper._login via its caller (scraper.py lines 334-363): a
LoginFailedException is rewrapped as ScraperException with the prefixed
message. -/
def login_step (w : QueryWorld) : Except String Unit :=
  match w.loginResult with
  | .ok _ => .ok ()
  | .error m => .error ("Authentication failed: " ++ m)

/-- GenericScraper._extract_data (scraper.py lines 492-531): error when no
strategies are configured; otherwise select an extractor and run it, with
every exception of selection or extraction rewrapped as ScraperException. -/
def extract_data_model (w : QueryWorld) : Except String (List Row) :=
  if w.strategies.isEmpty then .error "No extraction strategies configured"
  else
    match select_extractor w.env w.strategies with
    | .error msg => .error ("Data extraction failed: " ++ msg)
    | .ok t =>
      match w.runExtract t with
      | .error _ => .error "Data extraction failed"
      | .ok rows => .ok rows

/-- GenericScraper.query (scraper.py lines 533-572): launch the browser,
validate the stored session, log in when invalid, run the search step (whose
outcome is swallowed by _perform_search itself), extract, and save the
refreshed session; a failing final save raises and is rewrapped by the
generic handler. -/
def query_model (w : QueryWorld) (sw : SearchWorld) : Except String (List Row) :=
  if w.initBrowserOk = false then .error "Browser initialization failed"
  else
    match (if validate_session w.v then Except.ok () else login_step w) with
    | .error e => .error e
    | .ok _ =>
      let _ := perform_search_model sw
      match extract_data_model w with
      | .error e => .error e
      | .ok rows =>
        if w.saveOk then .ok rows else .error "Query execution failed"

/-
API layer model (src/backend/api/models.py and src/backend/app.py).
-/

/-- QueryRequest.validate_query (api/models.py lines 14-22): reject an empty
or whitespace-only query, reject a query longer than 1000 characters, and
otherwise hand the stripped query on.  The Python test len(v.strip()) == 0
is rendered as the stripped string being empty. -/
def validate_query (v : String) : Except String String :=
  if v = "" ∨ pyStrip v = "" then .error "Query cannot be empty"
  else if v.length > 1000 then .error "Query too long (max 1000 characters)"
  else .ok (pyStrip v)

/-- Outcome of the /query/\x7bsite_id\x7d endpoint as the caller sees it. -/
inductive ApiOutcome
  | validationError (msg : String)
  | notFound
  | httpError (msg : String)
  | success (rows : List Row)
  deriving DecidableEq

/-- The inputs of one query_site run: whether the configuration loader knows
the site, and the worlds of the scraper run. -/
structure AppWorld where
  siteKnown : Bool
  qw : QueryWorld
  sw : SearchWorld

/-- Outcome of a query_site run plus the effects it performed: whether site
configuration resolution was attempted and whether a browser surface was
opened. -/
structure ApiTrace where
  outcome : ApiOutcome
  configResolved : Bool
  browserOpened : Bool

/-- app.query_site (app.py lines 306-375) together with the request-model
validation FastAPI performs before the handler body runs: an invalid
QueryRequest is rejected with no handler work; the handler then resolves the
site configuration, opens the scraper (browser surface) and runs the query.
-/
def query_site_model (raw : String) (w : AppWorld) : ApiTrace :=
  match validate_query raw with
  | .error m => { outcome := .validationError m, configResolved := false, browserOpened := false }
  | .ok _ =>
    if w.siteKnown = false then
      { outcome := .notFound, configResolved := true, browserOpened := false }
    else
      match query_model w.qw w.sw with
      | .error e => { outcome := .httpError e, configResolved := true, browserOpened := true }
      | .ok rows => { outcome := .success rows, configResolved := true, browserOpened := true }

/-
Concrete inputs used by the witness theorems.
-/

/-- A fresh, readable, valid session file written at time 0. -/
def freshStore : StoreState :=
  { file := some { mtime := 0, content := .valid "state" },
    readRaises := false, statOk := true, unlinkOk := true }

/-- A validation world in which every browser operation succeeds. -/
def okValidation : ValidationWorld :=
  { store := freshStore, now := 0, config := {},
    createContext := .ok (), quickCheckHasSession := true,
    newPageOk := .ok (), gotoOk := .ok (), authStrategy := .ok none }

/-- A search world in which every browser operation succeeds. -/
def okSearch : SearchWorld :=
  { hasSearchConfig := true, searchUrl := some "https://site.example/search",
    inputSelector := some "#q", buttonSelector := some "#go",
    gotoOk := .ok (), fillOk := .ok (), clickOk := .ok (), waitOk := .ok () }

/-- A search world whose navigation raises. -/
def failSearch : SearchWorld :=
  { hasSearchConfig := true, searchUrl := some "https://site.example/search",
    inputSelector := some "#q", buttonSelector := some "#go",
    gotoOk := .error (), fillOk := .ok (), clickOk := .ok (), waitOk := .ok () }

/-- A registry holding a table and a raw extractor where only the raw one
can extract the current page. -/
def c2Env : ExtractionEnv :=
  { registered := ["table", "raw"],
    canEx := fun t => Except.ok (t == "raw") }

/-- A configured strategy list trying table first, then raw. -/
def c2Strategies : List StrategySpec :=
  [{ stype := some "table" }, { stype := some "raw" }]

/-- A query world in which every stage succeeds. -/
def okQueryWorld : QueryWorld :=
  { initBrowserOk := true, v := okValidation, loginResult := .ok (),
    env := c2Env, strategies := c2Strategies,
    runExtract := fun _ => Except.ok [[("title", "t")]], saveOk := true }

/-- A validation world whose context creation raises. -/
def c5World : ValidationWorld :=
  { okValidation with createContext := .error () }

/-- A store holding a corrupt session file. -/
def c6Store : StoreState :=
  { file := some { mtime := 0, content := .corrupt },
    readRaises := false, statOk := true, unlinkOk := true }

/-- A ttl-only site configuration. -/
def ttlOnlyConfig (S : Int) : SiteConfig :=
  { session := some { ttl_seconds := some S }, base_url := none }

/-- The app world of the C8 witness. -/
def c8World : AppWorld :=
  { siteKnown := true, qw := okQueryWorld, sw := okSearch }

/-- A post-login page whose URL signals success while an error element is
present. -/
def c3Page : PageModel :=
  { url := "https://site.example/dashboard",
    elements := [(".error-message", " Invalid password ")] }

/-- A form-auth configuration with one element failure indicator and one URL
success indicator, both matching c3Page. -/
def c3Cfg : FormAuthConfig :=
  { failure_indicators :=
      [{ itype := some "element_present", selector := some ".error-message",
         extract_error := true }],
    success_indicators :=
      some [{ itype := some "url_change", pattern := some "dashboard" }] }

/-- A 1001-character query string. -/
def longQuery : String := String.mk (List.replicate 1001 'x')

/-
Theorems.
-/

/-- Every raised exception inside the try block of _validate_session is
turned into False by its except handler. -/
theorem validate_session_of_body_error (w : ValidationWorld)
    (h : validateBody w = Except.error ()) : validate_session w = false := by
  unfold validate_session
  split
  · rfl
  · split
    · rfl
    · split
      · rfl
      · rw [h]

/-- Claim C1: the code violates save/load atomicity.  The legal interleaving
raceSched (save_session truncates at open('w'), then load_session runs to
completion under its shared flock, then save_session acquires the exclusive
flock and writes) completes both tasks while the load observes the empty
truncated file, which is neither the complete previous record "OLD" nor the
complete new record "NEW". -/
theorem c1_save_truncates_before_lock :
    raceRun "NEW" (raceInit "OLD") raceSched =
      some { file := some "NEW", lock := LockSt.free, wPC := 4, rPC := 4,
             observed := some "" } ∧
    (some "" : Option String) ≠ some "OLD" ∧
    (some "" : Option String) ≠ some "NEW" :=
  ⟨rfl, by decide, by decide⟩

/-- Claim C4: for a session file last written at time T and a configured TTL
of S seconds, is_session_expired is false at T+S-1 and true at T+S+1 (the
comparison age > ttl is strict). -/
theorem c4_ttl_boundary (T S : Int) (c : StoredContent) (r u : Bool) :
    is_session_expired
      { file := some { mtime := T, content := c }, readRaises := r,
        statOk := true, unlinkOk := u } (T + S - 1) (ttlOnlyConfig S) = false ∧
    is_session_expired
      { file := some { mtime := T, content := c }, readRaises := r,
        statOk := true, unlinkOk := u } (T + S + 1) (ttlOnlyConfig S) = true := by
  constructor
  · simp [is_session_expired, ttlOnlyConfig, ttlSeconds]
    omega
  · simp [is_session_expired, ttlOnlyConfig, ttlSeconds]
    omega

/-- Claim C9: is_session_expired fails safe and is total: it returns true
when the session file does not exist and returns true when reading the
modification time raises (statOk = false); it is a total Bool-valued
function, so no exception reaches the caller. -/
theorem c9_expired_fail_safe (f : StoredFile) (r u b : Bool) (now : Int)
    (cfg : SiteConfig) :
    is_session_expired
      { file := none, readRaises := r, statOk := b, unlinkOk := u }
      now cfg = true ∧
    is_session_expired
      { file := some f, readRaises := r, statOk := false, unlinkOk := u }
      now cfg = true := by
  constructor
  · rfl
  · rfl

/-- Claim C6: when the stored session file exists but fails to deserialize
as JSON, load_session deletes the corrupt file and returns None; by totality
of the embedding (every exception path of the source returns None) nothing
is raised to the caller. -/
theorem c6_corrupt_load_self_heals (st : StoreState) (f : StoredFile)
    (h1 : st.file = some f) (h2 : f.content = StoredContent.corrupt)
    (h3 : st.readRaises = false) (h4 : st.unlinkOk = true) :
    load_session st = (none, { st with file := none }) := by
  simp [load_session, delete_session, h1, h2, h3, h4]

/-- Witness for C6 at a concrete corrupt store. -/
theorem c6_corrupt_load_self_heals_witness :
    load_session c6Store = (none, { c6Store with file := none }) :=
  c6_corrupt_load_self_heals c6Store { mtime := 0, content := .corrupt }
    rfl rfl rfl rfl

/-- Claim C3: after form submission all failure indicators are evaluated
before any success indicator: any matching failure indicator makes the
attempt fail (LoginFailedException) regardless of success indicators, and
when no failure and no success indicator matches the attempt also fails. -/
theorem c3_failure_indicator_precedence (page : PageModel)
    (cfg : FormAuthConfig) :
    ((∃ i ∈ cfg.failure_indicators, check_indicator page i = true) →
      ∃ msg, post_submit_outcome page cfg = Except.error msg) ∧
    ((∀ i ∈ cfg.failure_indicators, check_indicator page i = false) →
     (∀ i ∈ cfg.success_indicators.getD defaultSuccessIndicators,
        check_indicator page i = false) →
      post_submit_outcome page cfg =
        Except.error "Login failed - no success indicators matched") := by
  constructor
  · intro h
    unfold post_submit_outcome
    cases hf : cfg.failure_indicators.find? (fun i => check_indicator page i) with
    | some ind => exact ⟨failureMessage page ind, rfl⟩
    | none =>
      exfalso
      obtain ⟨i, hi, hci⟩ := h
      have hnone := List.find?_eq_none.mp hf i hi
      simp [hci] at hnone
  · intro h1 h2
    unfold post_submit_outcome
    have hf : cfg.failure_indicators.find? (fun i => check_indicator page i)
        = none := by
      apply List.find?_eq_none.mpr
      intro i hi
      simp [h1 i hi]
    rw [hf]
    have ha : (cfg.success_indicators.getD defaultSuccessIndicators).any
        (fun i => check_indicator page i) = false := by
      cases hA : (cfg.success_indicators.getD defaultSuccessIndicators).any
          (fun i => check_indicator page i) with
      | false => rfl
      | true =>
        exfalso
        obtain ⟨x, hx, hpx⟩ := List.any_eq_true.mp hA
        rw [h2 x hx] at hpx
        exact Bool.false_ne_true hpx
    simp [ha]

/-- Witness for C3: a page where a failure indicator and a success indicator
both match, and the outcome is failure. -/
theorem c3_failure_indicator_precedence_witness :
    (∃ i ∈ c3Cfg.failure_indicators, check_indicator c3Page i = true) ∧
    (∃ i ∈ c3Cfg.success_indicators.getD defaultSuccessIndicators,
       check_indicator c3Page i = true) ∧
    ∃ msg, post_submit_outcome c3Page c3Cfg = Except.error msg :=
  ⟨by decide, by decide,
   (c3_failure_indicator_precedence c3Page c3Cfg).1 (by decide)⟩

/-- Claim C5: _validate_session is total (returns false or true) and never
propagates an exception: every raised exception inside its try block
(context creation, page creation, navigation, auth validity check) yields
false, and in particular a raising context creation yields false; the
record-loading steps before the try block are themselves total. -/
theorem c5_validation_never_propagates (w : ValidationWorld) :
    (validateBody w = Except.error () → validate_session w = false) ∧
    (w.createContext = Except.error () → validate_session w = false) ∧
    (validate_session w = false ∨ validate_session w = true) := by
  refine ⟨validate_session_of_body_error w, ?_, (Bool.eq_false_or_eq_true (validate_session w)).symm.imp id id⟩
  intro h
  apply validate_session_of_body_error
  unfold validateBody
  rw [h]

/-- Witness for C5: a world whose context creation raises, on a fresh valid
session record. -/
theorem c5_validation_never_propagates_witness :
    c5World.createContext = Except.error () ∧
    validate_session c5World = false :=
  ⟨rfl, (c5_validation_never_propagates c5World).2.1 rfl⟩

/-- Claim C7: the query outcome does not depend on the search step: for any
two search worlds, including ones in which navigation, filling the input or
submitting raises, the orchestrated query yields the same result, because
_perform_search catches every exception of its body and the orchestrator
always proceeds to extraction.  The last two conjuncts exhibit a search
world whose body genuinely raises while the query outcome is unchanged. -/
theorem c7_search_failure_nonfatal :
    (∀ (w : QueryWorld) (sw1 sw2 : SearchWorld),
       query_model w sw1 = query_model w sw2) ∧
    searchBody failSearch = Except.error () ∧
    query_model okQueryWorld failSearch = query_model okQueryWorld okSearch :=
  ⟨fun _ _ _ => rfl, rfl, rfl⟩

/-- On a strategy list whose entries all name a registered extractor whose
can_extract returns, select_extractor computes exactly the spec-side
firstApplicable choice, erroring when there is none. -/
theorem select_extractor_eq_firstApplicable (env : ExtractionEnv) :
    ∀ l : List StrategySpec, (∀ s ∈ l, wfStrategy env s = true) →
      select_extractor env l =
        (match firstApplicable env l with
         | some t => Except.ok t
         | none => Except.error "No suitable extractor found for this page") := by
  intro l
  induction l with
  | nil => intro _; rfl
  | cons s rest ih =>
    intro hwf
    have hs := hwf s (List.mem_cons_self s rest)
    have hrest : ∀ x ∈ rest, wfStrategy env x = true :=
      fun x hx => hwf x (List.mem_cons_of_mem s hx)
    obtain ⟨st⟩ := s
    cases st with
    | none => simp [wfStrategy] at hs
    | some t =>
      simp only [wfStrategy] at hs
      rw [Bool.and_eq_true] at hs
      cases hce : env.canEx t with
      | error e => rw [hce] at hs; simp [canExReturns] at hs
      | ok b =>
        have hregmem : t ∈ env.registered := by simpa using hs.1
        cases b with
        | true =>
          simp [select_extractor, firstApplicable, hce, hregmem]
        | false =>
          simp only [select_extractor, firstApplicable, hce]
          rw [if_pos (by simpa using hregmem)]
          exact ih hrest

/-- Claim C2: on a non-empty configured strategy list whose entries all name
registered extractors with returning can_extract calls, select_extractor
returns the extractor type of the first strategy, in declared order, whose
can_extract is true; and when no configured strategy is applicable the
selection raises, which makes the whole orchestrated query fail. -/
theorem c2_extractor_selection (env : ExtractionEnv) (l : List StrategySpec)
    (hne : l ≠ [])
    (hwf : ∀ s ∈ l, wfStrategy env s = true) :
    (∀ t, firstApplicable env l = some t →
       select_extractor env l = Except.ok t) ∧
    (firstApplicable env l = none →
       select_extractor env l =
         Except.error "No suitable extractor found for this page" ∧
       ∀ (w : QueryWorld) (sw : SearchWorld),
         w.env = env → w.strategies = l →
         ∃ e, query_model w sw = Except.error e) := by
  have key := select_extractor_eq_firstApplicable env l hwf
  constructor
  · intro t ht
    rw [key, ht]
  · intro hnone
    rw [key, hnone]
    refine ⟨rfl, ?_⟩
    intro w sw he hl
    have hx : extract_data_model w =
        Except.error
          ("Data extraction failed: " ++
            "No suitable extractor found for this page") := by
      unfold extract_data_model
      rw [hl, he, key, hnone]
      have hie : l.isEmpty = false := by
        cases l with
        | nil => exact absurd rfl hne
        | cons a as => rfl
      rw [hie]
      rfl
    unfold query_model
    by_cases hib : w.initBrowserOk = false
    · rw [if_pos hib]
      exact ⟨_, rfl⟩
    · rw [if_neg hib]
      cases hauth : (if validate_session w.v then Except.ok () else login_step w) with
      | error e =>
        exact ⟨e, rfl⟩
      | ok u =>
        exact ⟨"Data extraction failed: No suitable extractor found for this page",
               by simp [hx]⟩

/-- Witness for C2: with table and raw registered, only raw applicable, and
the list trying table then raw, selection returns raw. -/
theorem c2_extractor_selection_witness :
    select_extractor c2Env c2Strategies = Except.ok "raw" :=
  (c2_extractor_selection c2Env c2Strategies (by decide) (by decide)).1
    "raw" (by decide)

/-- QueryRequest.validate_query rejects a query that strips to empty or
exceeds 1000 characters. -/
theorem validate_query_rejects (v : String)
    (h : pyStrip v = "" ∨ v.length > 1000) :
    ∃ m, validate_query v = Except.error m := by
  unfold validate_query
  by_cases h1 : v = "" ∨ pyStrip v = ""
  · rw [if_pos h1]
    exact ⟨_, rfl⟩
  · rw [if_neg h1]
    have hl : v.length > 1000 := by
      rcases h with h | h
      · exact absurd (Or.inr h) h1
      · exact h
    rw [if_pos hl]
    exact ⟨_, rfl⟩

/-- Claim C8: a query that is empty (or whitespace-only) or longer than the
maximum length is rejected during request validation, before the site
configuration is resolved and before any browser surface is opened. -/
theorem c8_invalid_query_rejected_early (raw : String) (w : AppWorld)
    (h : pyStrip raw = "" ∨ raw.length > 1000) :
    ∃ m, query_site_model raw w =
      { outcome := ApiOutcome.validationError m, configResolved := false,
        browserOpened := false } := by
  obtain ⟨m, hm⟩ := validate_query_rejects raw h
  exact ⟨m, by unfold query_site_model; rw [hm]⟩

/-- Witness for C8: the whitespace-only query is rejected with no
configuration resolution and no browser surface. -/
theorem c8_invalid_query_rejected_early_witness :
    ∃ m, query_site_model "   " c8World =
      { outcome := ApiOutcome.validationError m, configResolved := false,
        browserOpened := false } :=
  c8_invalid_query_rejected_early "   " c8World (Or.inl (by decide))

/-- Claim C10: QueryRequest validation rejects every query whose stripped
form is empty, rejects every query whose original length exceeds 1000
characters, and otherwise forwards the whitespace-stripped query. -/
theorem c10_query_normalization (v : String) :
    (pyStrip v = "" → ∃ m, validate_query v = Except.error m) ∧
    (v.length > 1000 → ∃ m, validate_query v = Except.error m) ∧
    (pyStrip v ≠ "" → v.length ≤ 1000 →
      validate_query v = Except.ok (pyStrip v)) := by
  refine ⟨fun h => validate_query_rejects v (Or.inl h),
          fun h => validate_query_rejects v (Or.inr h), ?_⟩
  intro h1 h2
  unfold validate_query
  have hcond : ¬(v = "" ∨ pyStrip v = "") := by
    rintro (rfl | h)
    · exact h1 (by decide)
    · exact h1 h
  rw [if_neg hcond]
  rw [if_neg (by omega : ¬v.length > 1000)]

set_option maxRecDepth 8000 in
/-- Witness for C10: a whitespace-only query and an over-length query are
rejected; a padded query is forwarded stripped. -/
theorem c10_query_normalization_witness :
    (∃ m, validate_query "  " = Except.error m) ∧
    (∃ m, validate_query longQuery = Except.error m) ∧
    validate_query "  hi  " = Except.ok "hi" :=
  ⟨(c10_query_normalization "  ").1 (by decide),
   (c10_query_normalization longQuery).2.1 (by decide),
   (c10_query_normalization "  hi  ").2.2 (by decide) (by decide)⟩
